import Mathlib

/-!
Shallow embedding of the watch-index backend (`src/app.py`): the rate
limiter, the record validator, the CSV aggregation pipeline and the
GitHub-store interaction, together with proofs about the behaviour the
specification claims.

Modelling conventions:
* timestamps are rationals (seconds); `datetime.utcnow()` becomes an
  explicit `now : ℚ` argument;
* Python dicts coming from `csv.DictReader` are association lists
  `List (String × String)` looked up by first match;
* `float(...)` on decimal literals is `parseFloat`; a parse failure
  (`ValueError`) is `none`, and functions whose Python bodies can raise
  return `Option`;
* the GitHub store is abstracted as an environment `StoreEnv` recording
  the configuration flag, the GET-sha answer, the PUT outcome, and the
  submissions-directory listing; file contents are carried already parsed
  into CSV rows, and JSON serialization is carried as the structured
  snapshot value;
* the `updatedAt` timestamp field of the aggregate is omitted from the
  snapshot model (no claim concerns it).
-/

/-- One CSV row as produced by `csv.DictReader`: field name to raw string. -/
abbrev Row := List (String × String)

/-- First-match lookup in a row (Python `dict` access via `.get`). -/
def lookupField (row : Row) (key : String) : Option String :=
  (row.find? (fun p => p.1 == key)).map Prod.snd

/-- Python `data.get(key, default)` for string-valued fields. -/
def getFieldD (row : Row) (key : String) (d : String) : String :=
  (lookupField row key).getD d

/-- Value of a list of decimal digits. -/
def digitsVal (l : List Char) : ℕ :=
  l.foldl (fun a c => 10 * a + (c.toNat - 48)) 0

/-- Python `float()` on finite decimal literals: optional sign, integer
part, optional fractional part, at least one digit overall.  (Exponents,
`inf`/`nan`, surrounding whitespace and underscores are not modelled; no
claim exercises them.)  `none` models a raised `ValueError`. -/
def parseFloat (s : String) : Option ℚ :=
  let cs := s.toList
  let signed : ℚ × List Char :=
    match cs with
    | '-' :: t => (-1, t)
    | '+' :: t => (1, t)
    | _ => (1, cs)
  let sgn := signed.1
  let body := signed.2
  let ip := body.takeWhile Char.isDigit
  let rest := body.dropWhile Char.isDigit
  match rest with
  | [] => if ip.isEmpty then none else some (sgn * (digitsVal ip : ℚ))
  | '.' :: fr =>
    if fr.all Char.isDigit ∧ (ip ≠ [] ∨ fr ≠ []) then
      some (sgn * ((digitsVal ip : ℚ) + (digitsVal fr : ℚ) / (10 : ℚ) ^ fr.length))
    else none
  | _ => none

/-- Python `float(row.get(key, d))` where `d` is a numeric default:
a missing key yields the default, a present value is parsed and an
unparsable value raises (`none`). -/
def floatFieldD (row : Row) (key : String) (d : ℚ) : Option ℚ :=
  match lookupField row key with
  | none => some d
  | some v => parseFloat v

/-- Python `round(x)`: round half to even. -/
def roundHalfEven (x : ℚ) : ℤ :=
  let f := x.floor
  let r := x - (f : ℚ)
  if r < 1 / 2 then f
  else if r > 1 / 2 then f + 1
  else if f % 2 = 0 then f else f + 1

/-- Python `round(x, 2)`: round to two decimal places, half to even. -/
def round2 (x : ℚ) : ℚ :=
  (roundHalfEven (100 * x) : ℚ) / 100

/-! ## Rate limiting (`check_rate_limit`, src/app.py lines 18-41) -/

/-- The in-memory `rate_limit_store`: IP address to last-accepted time. -/
abbrev RateStore := List (String × ℚ)

/-- Lookup of an IP in the rate-limit store. -/
def lookupStore (st : RateStore) (ip : String) : Option ℚ :=
  (st.find? (fun p => p.1 == ip)).map Prod.snd

/-- `rate_limit_store[ip] = t`: overwrite the entry or append a new one. -/
def setStore (st : RateStore) (ip : String) (t : ℚ) : RateStore :=
  match st with
  | [] => [(ip, t)]
  | (k, v) :: rest => if k == ip then (k, t) :: rest else (k, v) :: setStore rest ip t

/-- Result of `check_rate_limit`: the `(allowed, wait_time)` pair. -/
structure RateLimitResult where
  allowed : Bool
  waitSeconds : ℤ
deriving DecidableEq, Repr

/-- `check_rate_limit` (src/app.py lines 18-41).  The 24-hour window is
86400 seconds; `int(... .total_seconds())` truncates toward zero, which on
the reject branch (where the remaining wait is positive) is the floor.
Returns the result together with the updated store. -/
def check_rate_limit (st : RateStore) (ip : String) (now : ℚ) :
    RateLimitResult × RateStore :=
  match lookupStore st ip with
  | some last =>
    if now - last < 86400 then
      (⟨false, ((86400 : ℚ) - (now - last)).floor⟩, st)
    else
      (⟨true, 0⟩, setStore st ip now)
  | none => (⟨true, 0⟩, setStore st ip now)

/-! ## Record validation (`validate_submission_data`, src/app.py lines 44-90) -/

def valid_ship_types : List String := ["Tanker", "Bulk", "Container", "Gas", "Other"]

def valid_regions : List String := ["Global", "Europe", "Middle East", "Asia", "Africa", "Americas"]

def valid_called : List String := ["Yes", "No"]

def valid_intensity : List String := ["Low", "Medium", "High"]

/-- The `except (ValueError, TypeError)` message (its `str(e)` suffix is
not modelled). -/
def invalidFormatMsg : String := "Invalid data format"

/-- `validate_submission_data` (src/app.py lines 44-90): numeric domains
first — `float(data.get(..., -1))`, so a missing numeric field defaults
to -1 and fails its range check — then the four enum memberships, in
source order, returning `(valid, error_message)`. -/
def validate_submission_data (data : Row) : Bool × String :=
  match floatFieldD data "sleep_hours" (-1) with
  | none => (false, invalidFormatMsg)
  | some sleep_hours =>
    if sleep_hours < 0 ∨ sleep_hours > 24 then
      (false, "Sleep hours must be between 0 and 24")
    else
      match floatFieldD data "rest_violations" (-1) with
      | none => (false, invalidFormatMsg)
      | some rest_violations =>
        if rest_violations < 0 ∨ rest_violations > 50 then
          (false, "Rest violations must be between 0 and 50")
        else if ¬ (getFieldD data "ship_type" "" ∈ valid_ship_types) then
          (false, "Invalid ship type. Must be one of: Tanker, Bulk, Container, Gas, Other")
        else if ¬ (getFieldD data "region" "" ∈ valid_regions) then
          (false, "Invalid region. Must be one of: Global, Europe, Middle East, Asia, Africa, Americas")
        else if ¬ (getFieldD data "called_during_rest" "" ∈ valid_called) then
          (false, "Called during rest must be \x27Yes\x27 or \x27No\x27")
        else if ¬ (getFieldD data "port_intensity" "" ∈ valid_intensity) then
          (false, "Invalid port intensity. Must be one of: Low, Medium, High")
        else (true, "")

/-! ## Aggregation (`aggregate_submissions`, src/app.py lines 133-191) -/

/-- The aggregate snapshot (`data/data.json` content).  The `updatedAt`
timestamp is omitted from the model. -/
structure Snapshot where
  totalSubmissions : ℕ
  avgSleepHours : ℚ
  avgRestViolations : ℚ
  byShip : List (String × ℕ)
  byRegion : List (String × ℕ)
deriving DecidableEq, Repr

/-- The snapshot produced when there are no submissions
(src/app.py lines 153-160). -/
def zeroSnapshot : Snapshot :=
  { totalSubmissions := 0
    avgSleepHours := 0
    avgRestViolations := 0
    byShip := []
    byRegion := [] }

/-- All data rows of all fetched files, in order
(the nested `for` loop of src/app.py lines 144-148). -/
def allRows (csv_files : List (String × List Row)) : List Row :=
  (csv_files.map Prod.snd).flatten

/-- `sum(float(s.get(key, 0)) for s in submissions)`: `none` when any
`float()` call raises. -/
def sumField : List Row → String → Option ℚ
  | [], _ => some 0
  | s :: t, key => do
    let v ← floatFieldD s key 0
    let rest ← sumField t key
    pure (v + rest)

/-- `defaultdict(int)` increment on an insertion-ordered association list. -/
def bumpCount (m : List (String × ℕ)) (k : String) : List (String × ℕ) :=
  match m with
  | [] => [(k, 1)]
  | (k2, v) :: rest => if k2 == k then (k2, v + 1) :: rest else (k2, v) :: bumpCount rest k

/-- The group-by loops of src/app.py lines 170-180:
`by[s.get(key, 'Unknown')] += 1` over all submissions. -/
def countBy (subs : List Row) (key : String) : List (String × ℕ) :=
  subs.foldl (fun m s => bumpCount m (getFieldD s key "Unknown")) []

/-- `aggregate_submissions` (src/app.py lines 133-191).  Input files carry
their rows already parsed (`csv.DictReader` is abstracted).  `none` models
the uncaught `ValueError` raised by `float()` on an unparsable
`sleep_hours` / `rest_violations` value in the sum comprehensions
(lines 164-165); that exception propagates to the caller. -/
def aggregate_submissions (csv_files : List (String × List Row)) : Option Snapshot :=
  let submissions := allRows csv_files
  if submissions.isEmpty then
    some zeroSnapshot
  else do
    let total_sleep ← sumField submissions "sleep_hours"
    let total_violations ← sumField submissions "rest_violations"
    let total_submissions := submissions.length
    let avg_sleep := if total_submissions > 0 then total_sleep / (total_submissions : ℚ) else 0
    let avg_violations :=
      if total_submissions > 0 then total_violations / (total_submissions : ℚ) else 0
    pure { totalSubmissions := total_submissions
           avgSleepHours := round2 avg_sleep
           avgRestViolations := round2 avg_violations
           byShip := countBy submissions "ship_type"
           byRegion := countBy submissions "region" }

/-! ## The GitHub store environment -/

/-- Outcome of one fetch of a listed file's `download_url`
(src/app.py line 123): a 200 response with (parsed) content, a non-200
status, or a raised exception. -/
inductive FetchOutcome where
  | ok (rows : List Row)
  | httpError (code : ℕ)
  | exn
deriving DecidableEq

/-- One entry of the submissions-directory listing. -/
structure FileEntry where
  name : String
  fetch : FetchOutcome
deriving DecidableEq

/-- Outcome of the directory-listing request (src/app.py lines 112-117). -/
inductive ListingResult where
  | ok (files : List FileEntry)
  | httpError (code : ℕ)
  | exn
deriving DecidableEq

/-- Outcome of a `PUT` to the contents API (src/app.py line 234):
`ok` is a 200/201 status, `conflict` a version-conflict rejection (409),
`error` any other failure. -/
inductive PutOutcome where
  | ok
  | conflict
  | error
deriving DecidableEq, Repr

/-- Content of a store write: raw submission bytes, or the serialized
aggregate snapshot (JSON serialization abstracted as the structured
value). -/
inductive StoreContent where
  | raw (bytes : String)
  | snapshot (snap : Snapshot)
deriving DecidableEq, Repr

/-- One attempted conditional write: path, content, and the `sha` field
included in the request body (the version tag read just before). -/
structure PutCall where
  path : String
  content : StoreContent
  sha : Option String
deriving DecidableEq, Repr

/-- Environment abstracting the GitHub API: whether `GITHUB_TOKEN` and
`REPO_FULL_NAME` are both set, the answer to a `GET` of a path (`some
sha` when the file exists, i.e. status 200), the outcome of a `PUT`, and
the submissions-directory listing. -/
structure StoreEnv where
  configPresent : Bool
  getSha : String → Option String
  put : PutCall → PutOutcome
  listing : ListingResult

/-! ## Fetching CSV files (`get_csv_files_from_github`, src/app.py lines 93-130) -/

/-- `file_info['name'].endswith('.csv')` (src/app.py line 121), modelled
at the character level. -/
def endsWithCsv (name : String) : Bool :=
  ".csv".toList.isSuffixOf name.toList

/-- The fetch loop of src/app.py lines 120-125 with the surrounding
`try`: each `.csv`-named entry is fetched; a non-200 response skips just
that file, while a raised exception (`none`) aborts the loop — the
enclosing handler then returns `[]`. -/
def fetchCsvEntries : List FileEntry → Option (List (String × List Row))
  | [] => some []
  | f :: t =>
    if endsWithCsv f.name then
      match f.fetch with
      | .exn => none
      | .httpError _ => fetchCsvEntries t
      | .ok rows => (fetchCsvEntries t).map (fun l => (f.name, rows) :: l)
    else fetchCsvEntries t

/-- `get_csv_files_from_github` (src/app.py lines 93-130): returns `[]`
when the configuration is missing, the listing request fails with a
non-200 status, or any exception is raised (listing or per-file fetch);
otherwise the successfully fetched `.csv` files. -/
def get_csv_files_from_github (env : StoreEnv) : List (String × List Row) :=
  if env.configPresent = false then []
  else
    match env.listing with
    | .httpError _ => []
    | .exn => []
    | .ok files =>
      match fetchCsvEntries files with
      | none => []
      | some l => l

/-! ## Conditional write (`commit_to_github`, src/app.py lines 194-239) -/

/-- `commit_to_github` (src/app.py lines 194-239): no-op failure when the
configuration is missing; otherwise a `GET` of the target path obtains the
current `sha` (when the file exists), the `PUT` body includes that `sha`,
and the result is `True` exactly for a 200/201 status.  Returns the
success flag together with the list of attempted writes. -/
def commit_to_github (env : StoreEnv) (filename : String) (content : StoreContent) :
    Bool × List PutCall :=
  if env.configPresent = false then (false, [])
  else
    let sha := env.getSha filename
    let call : PutCall := { path := filename, content := content, sha := sha }
    (match env.put call with
     | .ok => true
     | .conflict => false
     | .error => false,
     [call])

/-! ## Recompute-and-publish (`update_aggregated_data`, src/app.py lines 242-264) -/

/-- `update_aggregated_data` (src/app.py lines 242-264): fetch, aggregate,
and commit the snapshot to the fixed path `data/data.json`.  The `except`
catches the aggregation exception and returns `False`; there is no retry
of any kind.  Returns the success flag and the attempted writes. -/
def update_aggregated_data (env : StoreEnv) : Bool × List PutCall :=
  let csv_files := get_csv_files_from_github env
  match aggregate_submissions csv_files with
  | none => (false, [])
  | some aggregated_data =>
    commit_to_github env "data/data.json" (.snapshot aggregated_data)

/-! ## The upload endpoint (`upload_file`, src/app.py lines 267-345) -/

/-- An uploaded file: original filename, raw bytes, and the rows obtained
by decoding + `csv.DictReader` (`none` when decoding or parsing raises). -/
structure FileUpload where
  filename : String
  raw : String
  parsed : Option (List Row)

/-- An upload request: optional `X-Forwarded-For` header, `remote_addr`,
the honeypot form field `website` (`''` when absent), and the optional
`submission` file. -/
structure UploadRequest where
  xForwardedFor : Option String
  remoteAddr : String
  website : String
  file? : Option FileUpload

/-- Python `filename.replace("..", "_")` (src/app.py line 331):
left-to-right, non-overlapping, at the character level. -/
def replaceDotDot : List Char → List Char
  | [] => []
  | '.' :: '.' :: t => '_' :: replaceDotDot t
  | c :: t => c :: replaceDotDot t

/-- The sanitized filename used in the destination path. -/
def sanitize_filename (name : String) : String :=
  ⟨replaceDotDot name.toList⟩

/-- The HTTP responses of `upload_file` (status code and `error`/`status`
body). -/
inductive UploadResponse where
  | err429 (msg : String)
  | err400 (msg : String)
  | err500 (msg : String)
  | ok200
deriving DecidableEq, Repr

/-- Client IP extraction (src/app.py lines 281-284): first entry of a
non-empty `X-Forwarded-For`, else `remote_addr`. -/
def client_ip (req : UploadRequest) : String :=
  match req.xForwardedFor with
  | some s => if s.isEmpty then req.remoteAddr else ((s.splitOn ",").headD "").trim
  | none => req.remoteAddr

/-- The 429 body (src/app.py lines 289-293), built from the whole-second
wait via integer division. -/
def rate_limit_message (wait : ℤ) : String :=
  "Rate limit exceeded. Please wait " ++ toString (wait / 3600) ++ "h " ++
    toString ((wait % 3600) / 60) ++ "m before submitting again."

/-- `upload_file` (src/app.py lines 267-345): rate limit, honeypot, file
presence, filename, CSV decode, first-row validation, then the raw commit
followed (on success) by the aggregate update whose result is discarded.
Returns the response, the updated rate-limit store, and all attempted
store writes. -/
def upload_file (req : UploadRequest) (store : RateStore) (now : ℚ) (ts : String)
    (env : StoreEnv) : UploadResponse × RateStore × List PutCall :=
  let ip := client_ip req
  let rl := check_rate_limit store ip now
  let store2 := rl.2
  if rl.1.allowed = false then
    (.err429 (rate_limit_message rl.1.waitSeconds), store2, [])
  else if req.website ≠ "" then
    (.err400 "Invalid submission.", store2, [])
  else
    match req.file? with
    | none => (.err400 "No submission file provided.", store2, [])
    | some file =>
      if file.filename = "" then (.err400 "Empty filename.", store2, [])
      else
        match file.parsed with
        | none => (.err400 "Invalid CSV format.", store2, [])
        | some [] => (.err400 "Empty CSV file.", store2, [])
        | some (first :: _) =>
          let vr := validate_submission_data first
          if vr.1 = false then (.err400 vr.2, store2, [])
          else
            let safe_filename := sanitize_filename file.filename
            let target_path := "submissions/" ++ ts ++ "_" ++ safe_filename
            let cr := commit_to_github env target_path (.raw file.raw)
            if cr.1 then
              let ar := update_aggregated_data env
              (.ok200, store2, cr.2 ++ ar.2)
            else
              (.err500 "Failed to commit file to GitHub.", store2, cr.2)

/-! ## Concrete instances used in counterexamples and witnesses -/

/-- A fully valid record (all fields in-domain, region spelled as in the
source's member list). -/
def validRow : Row :=
  [("sleep_hours", "7"), ("rest_violations", "1"), ("ship_type", "Tanker"),
   ("region", "Middle East"), ("called_during_rest", "Yes"), ("port_intensity", "Low")]

/-- Same record with the region spelled `MiddleEast`, as the spec's enum
lists it. -/
def middleEastRow : Row :=
  [("sleep_hours", "7"), ("rest_violations", "1"), ("ship_type", "Tanker"),
   ("region", "MiddleEast"), ("called_during_rest", "Yes"), ("port_intensity", "Low")]

/-- A row whose `sleep_hours` value is present but not parseable. -/
def unparsableRow : Row := [("sleep_hours", "abc")]

/-- A fetched file set containing one unparsable numeric value. -/
def unparsableFiles : List (String × List Row) := [("a.csv", [unparsableRow])]

/-- A file whose first row lacks both numeric fields and whose second row
is fully valid. -/
def claim2File : List (String × List Row) :=
  [("a.csv", [[("ship_type", "Tanker")], validRow])]

/-- A single fully valid submission file. -/
def claim6File : List (String × List Row) := [("a.csv", [validRow])]

/-- The snapshot `aggregate_submissions` computes for `claim6File`. -/
def claim6Snap : Snapshot :=
  { totalSubmissions := 1
    avgSleepHours := 7
    avgRestViolations := 1
    byShip := [("Tanker", 1)]
    byRegion := [("Middle East", 1)] }

/-- Store environment whose every `PUT` reports a version conflict. -/
def conflictEnv : StoreEnv :=
  { configPresent := true
    getSha := fun _ => some "sha0"
    put := fun _ => PutOutcome.conflict
    listing := ListingResult.ok [] }

/-- Store environment with the configuration values absent. -/
def noConfigEnv : StoreEnv :=
  { configPresent := false
    getSha := fun _ => none
    put := fun _ => PutOutcome.ok
    listing := ListingResult.ok [] }

/-- Store environment whose listing request fails with a non-200 status. -/
def listFailEnv : StoreEnv :=
  { configPresent := true
    getSha := fun _ => some "sha0"
    put := fun _ => PutOutcome.ok
    listing := ListingResult.httpError 500 }

/-- Store environment where every operation succeeds and the submissions
directory is empty. -/
def okEnv : StoreEnv :=
  { configPresent := true
    getSha := fun _ => none
    put := fun _ => PutOutcome.ok
    listing := ListingResult.ok [] }

/-- Three listed `.csv` files of which the middle one's fetch raises
(store unreachable); the other two are readable. -/
def mixedFetchEnv : StoreEnv :=
  { configPresent := true
    getSha := fun _ => none
    put := fun _ => PutOutcome.ok
    listing := ListingResult.ok
      [{ name := "a.csv", fetch := FetchOutcome.ok [validRow] },
       { name := "b.csv", fetch := FetchOutcome.exn },
       { name := "c.csv", fetch := FetchOutcome.ok [validRow] }] }

/-- Environment where the raw-submission write succeeds but the aggregate
publish to `data/data.json` hits a version conflict. -/
def aggFailEnv : StoreEnv :=
  { configPresent := true
    getSha := fun _ => none
    put := fun c => if c.path = "data/data.json" then PutOutcome.conflict else PutOutcome.ok
    listing := ListingResult.exn }

/-- An upload request whose honeypot field is filled. -/
def honeypotReq : UploadRequest :=
  { xForwardedFor := none
    remoteAddr := "7.7.7.7"
    website := "http://spam"
    file? := some { filename := "sub.csv", raw := "rawbytes", parsed := some [validRow] } }

/-- A well-formed upload request carrying one valid record. -/
def goodReq : UploadRequest :=
  { xForwardedFor := none
    remoteAddr := "8.8.8.8"
    website := ""
    file? := some { filename := "sub.csv", raw := "rawbytes", parsed := some [validRow] } }

/-- An upload request that passes admission but fails validation
(out-of-range sleep hours). -/
def invalidReq : UploadRequest :=
  { xForwardedFor := none
    remoteAddr := "9.9.9.9"
    website := ""
    file? := some { filename := "sub.csv", raw := "rawbytes",
                    parsed := some [[("sleep_hours", "25")]] } }

/-! ## Helper lemmas -/

theorem lookupStore_cons (k : String) (v : ℚ) (l : RateStore) (ip : String) :
    lookupStore ((k, v) :: l) ip = if k == ip then some v else lookupStore l ip := by
  by_cases h : (k == ip) = true <;> simp [lookupStore, List.find?, h]

theorem lookupStore_setStore_self (st : RateStore) (ip : String) (t : ℚ) :
    lookupStore (setStore st ip t) ip = some t := by
  induction st with
  | nil => simp [setStore, lookupStore, List.find?]
  | cons p rest ih =>
    obtain ⟨k, v⟩ := p
    by_cases h : (k == ip) = true
    · simp [setStore, h, lookupStore_cons]
    · simp [setStore, h, lookupStore_cons, ih]

theorem check_rate_limit_store_of_allowed (st : RateStore) (ip : String) (now : ℚ)
    (h : (check_rate_limit st ip now).1.allowed = true) :
    (check_rate_limit st ip now).2 = setStore st ip now := by
  unfold check_rate_limit at h ⊢
  cases hl : lookupStore st ip with
  | none => simp
  | some last =>
    rw [hl] at h
    dsimp only at h ⊢
    by_cases hlt : now - last < 86400
    · rw [if_pos hlt] at h; simp at h
    · rw [if_neg hlt]

theorem check_rate_limit_of_lt (st : RateStore) (ip : String) (now last : ℚ)
    (h : lookupStore st ip = some last) (hlt : now - last < 86400) :
    check_rate_limit st ip now = (⟨false, ((86400 : ℚ) - (now - last)).floor⟩, st) := by
  unfold check_rate_limit
  rw [h]
  dsimp only
  rw [if_pos hlt]

theorem check_rate_limit_of_ge (st : RateStore) (ip : String) (now last : ℚ)
    (h : lookupStore st ip = some last) (hge : ¬ now - last < 86400) :
    check_rate_limit st ip now = (⟨true, 0⟩, setStore st ip now) := by
  unfold check_rate_limit
  rw [h]
  dsimp only
  rw [if_neg hge]

theorem upload_file_rate_store (req : UploadRequest) (st : RateStore) (now : ℚ)
    (ts : String) (env : StoreEnv) :
    (upload_file req st now ts env).2.1 = (check_rate_limit st (client_ip req) now).2 := by
  unfold upload_file
  dsimp only
  repeat first | rfl | split

theorem upload_file_rejected (req : UploadRequest) (st : RateStore) (now : ℚ)
    (ts : String) (env : StoreEnv)
    (h : (check_rate_limit st (client_ip req) now).1.allowed = false) :
    (upload_file req st now ts env).1 =
      UploadResponse.err429
        (rate_limit_message (check_rate_limit st (client_ip req) now).1.waitSeconds) := by
  unfold upload_file
  dsimp only
  simp [h]

theorem sumField_eq_some (subs : List Row) (key : String)
    (h : ∀ r ∈ subs, (floatFieldD r key 0).isSome = true) :
    sumField subs key =
      some ((subs.map (fun r => (floatFieldD r key 0).getD 0)).sum) := by
  induction subs with
  | nil => simp [sumField]
  | cons s t ih =>
    have hs := h s (by simp)
    obtain ⟨v, hv⟩ := Option.isSome_iff_exists.mp hs
    have ht := ih (fun r hr => h r (by simp [hr]))
    simp [sumField, hv, ht]

theorem aggregate_submissions_of_parse (csv_files : List (String × List Row))
    (hne : (allRows csv_files).isEmpty = false)
    (h : ∀ r ∈ allRows csv_files,
      (floatFieldD r "sleep_hours" 0).isSome = true ∧
        (floatFieldD r "rest_violations" 0).isSome = true) :
    aggregate_submissions csv_files =
      some { totalSubmissions := (allRows csv_files).length
             avgSleepHours := round2
               (((allRows csv_files).map
                   (fun r => (floatFieldD r "sleep_hours" 0).getD 0)).sum /
                 ((allRows csv_files).length : ℚ))
             avgRestViolations := round2
               (((allRows csv_files).map
                   (fun r => (floatFieldD r "rest_violations" 0).getD 0)).sum /
                 ((allRows csv_files).length : ℚ))
             byShip := countBy (allRows csv_files) "ship_type"
             byRegion := countBy (allRows csv_files) "region" } := by
  have hlen : 0 < (allRows csv_files).length := by
    cases he : allRows csv_files with
    | nil => rw [he] at hne; simp at hne
    | cons a l => simp [he]
  have hs := sumField_eq_some (allRows csv_files) "sleep_hours" (fun r hr => (h r hr).1)
  have hv := sumField_eq_some (allRows csv_files) "rest_violations" (fun r hr => (h r hr).2)
  unfold aggregate_submissions
  dsimp only
  rw [hne, hs, hv]
  simp [hlen]

theorem fetchCsvEntries_of_no_exn (files : List FileEntry)
    (h : ∀ f ∈ files, endsWithCsv f.name = true → f.fetch ≠ FetchOutcome.exn) :
    fetchCsvEntries files = some (files.filterMap (fun f =>
      if endsWithCsv f.name then
        match f.fetch with
        | FetchOutcome.ok rows => some (f.name, rows)
        | _ => none
      else none)) := by
  induction files with
  | nil => rfl
  | cons f t ih =>
    have ht := ih (fun g hg hc => h g (by simp [hg]) hc)
    by_cases hc : endsWithCsv f.name = true
    · cases hf : f.fetch with
      | exn => exact absurd hf (h f (by simp) hc)
      | httpError code => simp [fetchCsvEntries, hc, hf, ht]
      | ok rows => simp [fetchCsvEntries, hc, hf, ht]
    · simp [fetchCsvEntries, hc, ht]

theorem fetchCsvEntries_of_exn (files : List FileEntry) (f : FileEntry)
    (hm : f ∈ files) (hc : endsWithCsv f.name = true)
    (he : f.fetch = FetchOutcome.exn) :
    fetchCsvEntries files = none := by
  induction files with
  | nil => cases hm
  | cons g t ih =>
    rcases List.mem_cons.mp hm with hg | hm2
    · subst hg
      simp [fetchCsvEntries, hc, he]
    · have ht := ih hm2
      by_cases hgc : endsWithCsv g.name = true
      · cases hg : g.fetch <;> simp [fetchCsvEntries, hgc, hg, ht]
      · simp [fetchCsvEntries, hgc, ht]

theorem floatFieldD_domain_iff (data : Row) (key : String) (hi : ℚ) :
    (∃ v, floatFieldD data key (-1) = some v ∧ ¬ (v < 0 ∨ v > hi)) ↔
      (∃ v, (lookupField data key).bind parseFloat = some v ∧ 0 ≤ v ∧ v ≤ hi) := by
  unfold floatFieldD
  cases h : lookupField data key with
  | none =>
    simp only [h, Option.bind]
    constructor
    · rintro ⟨v, hv, hdom⟩
      exfalso
      obtain rfl : v = -1 := by injection hv.symm
      exact hdom (Or.inl (by norm_num))
    · rintro ⟨v, hv, _⟩
      cases hv
  | some s =>
    simp only [h, Option.bind]
    constructor
    · rintro ⟨v, hv, hdom⟩
      rw [not_or, not_lt, not_lt] at hdom
      exact ⟨v, hv, hdom.1, hdom.2⟩
    · rintro ⟨v, hv, h0, h1⟩
      exact ⟨v, hv, by rw [not_or, not_lt, not_lt]; exact ⟨h0, h1⟩⟩

theorem validate_true_iff (data : Row) :
    (validate_submission_data data).1 = true ↔
      ((∃ v, (lookupField data "sleep_hours").bind parseFloat = some v ∧ 0 ≤ v ∧ v ≤ 24) ∧
       (∃ v, (lookupField data "rest_violations").bind parseFloat = some v ∧ 0 ≤ v ∧ v ≤ 50) ∧
       getFieldD data "ship_type" "" ∈ valid_ship_types ∧
       getFieldD data "region" "" ∈ valid_regions ∧
       getFieldD data "called_during_rest" "" ∈ valid_called ∧
       getFieldD data "port_intensity" "" ∈ valid_intensity) := by
  rw [← floatFieldD_domain_iff data "sleep_hours" 24,
      ← floatFieldD_domain_iff data "rest_violations" 50]
  cases h1 : floatFieldD data "sleep_hours" (-1) with
  | none => simp [validate_submission_data, h1]
  | some v1 =>
    by_cases c1 : v1 < 0 ∨ v1 > 24
    · simp [validate_submission_data, h1, c1]
      intro h0 h24
      rcases c1 with c | c
      · exact absurd h0 (not_le.mpr c)
      · exact absurd h24 (not_le.mpr c)
    · cases h2 : floatFieldD data "rest_violations" (-1) with
      | none => simp [validate_submission_data, h1, h2, c1]
      | some v2 =>
        by_cases c2 : v2 < 0 ∨ v2 > 50
        · simp [validate_submission_data, h1, h2, c1, c2]
          intro h0a h24a h0 h50
          rcases c2 with c | c
          · exact absurd h0 (not_le.mpr c)
          · exact absurd h50 (not_le.mpr c)
        · by_cases m1 : getFieldD data "ship_type" "" ∈ valid_ship_types
          · by_cases m2 : getFieldD data "region" "" ∈ valid_regions
            · by_cases m3 : getFieldD data "called_during_rest" "" ∈ valid_called
              · by_cases m4 : getFieldD data "port_intensity" "" ∈ valid_intensity
                · simp [validate_submission_data, h1, h2, c1, c2, m1, m2, m3, m4]
                  push_neg at c1 c2
                  exact ⟨⟨c1.1, c1.2⟩, c2.1, c2.2⟩
                · simp [validate_submission_data, h1, h2, c1, c2, m1, m2, m3, m4]
              · simp [validate_submission_data, h1, h2, c1, c2, m1, m2, m3]
            · simp [validate_submission_data, h1, h2, c1, c2, m1, m2]
          · simp [validate_submission_data, h1, h2, c1, c2, m1]

theorem rat_floor_intCast (n : ℤ) : ((n : ℚ)).floor = n := by
  rw [Rat.floor_def']
  norm_num

theorem roundHalfEven_intCast (n : ℤ) : roundHalfEven (n : ℚ) = n := by
  unfold roundHalfEven
  rw [rat_floor_intCast]
  norm_num

theorem round2_intCast (n : ℤ) : round2 (n : ℚ) = (n : ℚ) := by
  unfold round2
  rw [show (100 : ℚ) * (n : ℚ) = ((100 * n : ℤ) : ℚ) by push_cast; ring,
      roundHalfEven_intCast]
  push_cast
  ring

theorem parseFloat_7 : parseFloat "7" = some 7 := by
  rw [show parseFloat "7" = some (1 * ((7 : ℕ) : ℚ)) from rfl]
  norm_num

theorem parseFloat_1 : parseFloat "1" = some 1 := by
  rw [show parseFloat "1" = some (1 * ((1 : ℕ) : ℚ)) from rfl]
  norm_num

/-! ## Claim theorems -/

/-- C1 (amended): every publish of the aggregate includes the version tag
(sha) read from the fixed path `data/data.json` just before the write —
but there is no retry: `update_aggregated_data` performs at most one
publish attempt, and when the store reports a version conflict it simply
returns failure without retrying the recompute-and-publish cycle. -/
theorem claim1_conditional_write_no_retry (env : StoreEnv) :
    (update_aggregated_data env).2.length ≤ 1 ∧
    (∀ call ∈ (update_aggregated_data env).2,
      call.path = "data/data.json" ∧ call.sha = env.getSha "data/data.json") ∧
    (∀ call ∈ (update_aggregated_data env).2,
      env.put call = PutOutcome.conflict → (update_aggregated_data env).1 = false) := by
  unfold update_aggregated_data
  dsimp only
  cases hagg : aggregate_submissions (get_csv_files_from_github env) with
  | none => simp
  | some snap =>
    unfold commit_to_github
    cases hcfg : env.configPresent with
    | false => simp
    | true =>
      dsimp only
      refine ⟨by simp, ?_, ?_⟩
      · intro call hm
        simp at hm
        subst hm
        exact ⟨rfl, rfl⟩
      · intro call hm hput
        simp at hm
        subst hm
        simp [hput]

/-- C1 counterexample: in an environment whose store reports a version
conflict, the publish cycle runs exactly once (one attempted write, no
retry) and `update_aggregated_data` returns plain failure — the claimed
retry-once-then-surface-conflict behaviour does not exist. -/
theorem claim1_counterexample :
    conflictEnv.put { path := "data/data.json", content := StoreContent.snapshot zeroSnapshot,
                      sha := some "sha0" } = PutOutcome.conflict ∧
    update_aggregated_data conflictEnv =
      (false, [{ path := "data/data.json", content := StoreContent.snapshot zeroSnapshot,
                 sha := some "sha0" }]) := by
  exact ⟨rfl, rfl⟩

/-- C1 witness: the amended theorem applied to the conflicting
environment. -/
theorem claim1_witness : (update_aggregated_data conflictEnv).1 = false := by
  exact (claim1_conditional_write_no_retry conflictEnv).2.2
    { path := "data/data.json", content := StoreContent.snapshot zeroSnapshot,
      sha := some "sha0" }
    (by decide) (by decide)

/-- C2 (amended): a row whose sleep-hours or rest-violations field is
absent contributes the default 0 to the corresponding sum and still
counts toward `totalSubmissions`; but when every row parses (absent or
parseable), the totals count all rows — a present-but-unparsable value
instead makes the whole aggregation raise (see the counterexample). -/
theorem claim2_tolerant_missing_fields (csv_files : List (String × List Row))
    (h : ∀ r ∈ allRows csv_files,
      (floatFieldD r "sleep_hours" 0).isSome = true ∧
        (floatFieldD r "rest_violations" 0).isSome = true) :
    (∃ snap, aggregate_submissions csv_files = some snap ∧
      snap.totalSubmissions = (allRows csv_files).length) ∧
    sumField (allRows csv_files) "sleep_hours" =
      some ((allRows csv_files).map (fun r => (floatFieldD r "sleep_hours" 0).getD 0)).sum ∧
    sumField (allRows csv_files) "rest_violations" =
      some ((allRows csv_files).map (fun r => (floatFieldD r "rest_violations" 0).getD 0)).sum ∧
    (∀ r : Row, lookupField r "sleep_hours" = none →
      floatFieldD r "sleep_hours" 0 = some 0) ∧
    (∀ r : Row, lookupField r "rest_violations" = none →
      floatFieldD r "rest_violations" 0 = some 0) := by
  have hs := sumField_eq_some (allRows csv_files) "sleep_hours" (fun r hr => (h r hr).1)
  have hv := sumField_eq_some (allRows csv_files) "rest_violations" (fun r hr => (h r hr).2)
  refine ⟨?_, hs, hv, ?_, ?_⟩
  · cases he : (allRows csv_files).isEmpty with
    | false => exact ⟨_, aggregate_submissions_of_parse csv_files he h, rfl⟩
    | true =>
      refine ⟨zeroSnapshot, by simp [aggregate_submissions, he], ?_⟩
      have hnil : allRows csv_files = [] := by
        cases hl : allRows csv_files with
        | nil => rfl
        | cons a t => rw [hl] at he; simp at he
      rw [hnil]
      rfl
  · intro r hr
    simp [floatFieldD, hr]
  · intro r hr
    simp [floatFieldD, hr]

/-- C2 counterexample: a single row whose `sleep_hours` value is present
but not parseable as a float makes `aggregate_submissions` raise (`none`)
instead of counting the row with a 0 contribution. -/
theorem claim2_counterexample : aggregate_submissions unparsableFiles = none := by
  decide

/-- C2 witness: the amended theorem applied to a file whose first row
lacks both numeric fields; that row counts toward the total of 2. -/
theorem claim2_witness :
    (∃ snap, aggregate_submissions claim2File = some snap ∧
      snap.totalSubmissions = (allRows claim2File).length) ∧
    sumField (allRows claim2File) "sleep_hours" =
      some ((allRows claim2File).map (fun r => (floatFieldD r "sleep_hours" 0).getD 0)).sum ∧
    sumField (allRows claim2File) "rest_violations" =
      some ((allRows claim2File).map (fun r => (floatFieldD r "rest_violations" 0).getD 0)).sum ∧
    (∀ r : Row, lookupField r "sleep_hours" = none →
      floatFieldD r "sleep_hours" 0 = some 0) ∧
    (∀ r : Row, lookupField r "rest_violations" = none →
      floatFieldD r "rest_violations" 0 = some 0) := by
  exact claim2_tolerant_missing_fields claim2File (by decide)

/-- C6: in every recomputed snapshot, each average equals the per-row sum
divided by `totalSubmissions`, rounded to 2 decimal places, when
`totalSubmissions > 0`; and when there are no submissions the snapshot is
the zero snapshot — `totalSubmissions = 0` and both averages exactly 0. -/
theorem claim6_average_division_guard (csv_files : List (String × List Row))
    (snap : Snapshot) (h : aggregate_submissions csv_files = some snap) :
    (snap.totalSubmissions = 0 → snap.avgSleepHours = 0 ∧ snap.avgRestViolations = 0) ∧
    ((allRows csv_files).isEmpty = true → snap = zeroSnapshot) ∧
    (0 < snap.totalSubmissions →
      ∃ S V, sumField (allRows csv_files) "sleep_hours" = some S ∧
        sumField (allRows csv_files) "rest_violations" = some V ∧
        snap.avgSleepHours = round2 (S / (snap.totalSubmissions : ℚ)) ∧
        snap.avgRestViolations = round2 (V / (snap.totalSubmissions : ℚ))) := by
  cases he : (allRows csv_files).isEmpty with
  | true =>
    have hz : aggregate_submissions csv_files = some zeroSnapshot := by
      simp [aggregate_submissions, he]
    rw [h] at hz
    injection hz with hz
    subst hz
    refine ⟨fun _ => ⟨rfl, rfl⟩, fun _ => rfl, ?_⟩
    intro h0
    simp [zeroSnapshot] at h0
  | false =>
    cases hS : sumField (allRows csv_files) "sleep_hours" with
    | none =>
      exfalso
      unfold aggregate_submissions at h
      dsimp only at h
      rw [he, hS] at h
      simp at h
    | some S =>
      cases hV : sumField (allRows csv_files) "rest_violations" with
      | none =>
        exfalso
        unfold aggregate_submissions at h
        dsimp only at h
        rw [he, hS, hV] at h
        simp at h
      | some V =>
        have hlen : 0 < (allRows csv_files).length := by
          cases hl : allRows csv_files with
          | nil => rw [hl] at he; simp at he
          | cons a t => simp [hl]
        have hsnap : aggregate_submissions csv_files =
            some { totalSubmissions := (allRows csv_files).length
                   avgSleepHours := round2 (S / ((allRows csv_files).length : ℚ))
                   avgRestViolations := round2 (V / ((allRows csv_files).length : ℚ))
                   byShip := countBy (allRows csv_files) "ship_type"
                   byRegion := countBy (allRows csv_files) "region" } := by
          unfold aggregate_submissions
          dsimp only
          rw [he, hS, hV]
          simp [hlen]
        rw [h] at hsnap
        injection hsnap with hsnap
        subst hsnap
        refine ⟨?_, ?_, ?_⟩
        · intro h0
          dsimp only at h0
          exact absurd h0 (by omega)
        · intro habs
          cases habs
        · intro h0
          exact ⟨S, V, rfl, rfl, rfl, rfl⟩

/-- C6 witness: the theorem applied to a single valid submission. -/
theorem claim6_witness :
    ∃ S V, sumField (allRows claim6File) "sleep_hours" = some S ∧
      sumField (allRows claim6File) "rest_violations" = some V ∧
      claim6Snap.avgSleepHours = round2 (S / (claim6Snap.totalSubmissions : ℚ)) ∧
      claim6Snap.avgRestViolations = round2 (V / (claim6Snap.totalSubmissions : ℚ)) := by
  have hagg : aggregate_submissions claim6File = some claim6Snap := by
    rw [aggregate_submissions_of_parse claim6File rfl (by decide)]
    refine congrArg some ?_
    have e1 : ((allRows claim6File).map
        (fun r => (floatFieldD r "sleep_hours" 0).getD 0)).sum = (parseFloat "7").getD 0 + 0 := rfl
    have e2 : ((allRows claim6File).map
        (fun r => (floatFieldD r "rest_violations" 0).getD 0)).sum = (parseFloat "1").getD 0 + 0 := rfl
    have hlen : (allRows claim6File).length = 1 := rfl
    rw [e1, e2, parseFloat_7, parseFloat_1, hlen]
    have q1 : (((some 7 : Option ℚ)).getD 0 + 0) / ((1 : ℕ) : ℚ) = ((7 : ℤ) : ℚ) := by
      norm_num
    have q2 : (((some 1 : Option ℚ)).getD 0 + 0) / ((1 : ℕ) : ℚ) = ((1 : ℤ) : ℚ) := by
      norm_num
    rw [q1, q2, round2_intCast, round2_intCast]
    rfl
  exact (claim6_average_division_guard claim6File claim6Snap hagg).2.2 (by decide)

/-- C7 (amended): with configuration present and a successful listing, a
non-200 fetch status for one file skips just that file and the recompute
proceeds over the remaining readable files; but a raised exception during
any file's fetch makes the whole fetch step return an empty file list. -/
theorem claim7_fetch_failure_modes (env : StoreEnv) (files : List FileEntry)
    (hcfg : env.configPresent = true) (hl : env.listing = ListingResult.ok files) :
    ((∀ f ∈ files, endsWithCsv f.name = true → f.fetch ≠ FetchOutcome.exn) →
      get_csv_files_from_github env = files.filterMap (fun f =>
        if endsWithCsv f.name then
          match f.fetch with
          | FetchOutcome.ok rows => some (f.name, rows)
          | _ => none
        else none)) ∧
    ((∃ f ∈ files, endsWithCsv f.name = true ∧ f.fetch = FetchOutcome.exn) →
      get_csv_files_from_github env = []) := by
  constructor
  · intro h
    unfold get_csv_files_from_github
    simp only [hcfg, hl]
    rw [fetchCsvEntries_of_no_exn files h]
    simp
  · rintro ⟨f, hm, hc, he⟩
    unfold get_csv_files_from_github
    simp only [hcfg, hl]
    rw [fetchCsvEntries_of_exn files f hm hc he]
    simp

/-- C7 counterexample: three listed files of which only the middle one's
fetch raises — the fetch step yields the empty file set (the two readable
files are dropped), and the recompute publishes the zero snapshot. -/
theorem claim7_counterexample :
    get_csv_files_from_github mixedFetchEnv = [] ∧
    (update_aggregated_data mixedFetchEnv).2 =
      [{ path := "data/data.json", content := StoreContent.snapshot zeroSnapshot,
         sha := none }] := by
  exact ⟨rfl, rfl⟩

/-- C7 witness: the amended theorem applied to a two-file listing with
one non-200 fetch, and to the mixed environment with one exception. -/
theorem claim7_witness :
    get_csv_files_from_github
      { configPresent := true
        getSha := fun _ => none
        put := fun _ => PutOutcome.ok
        listing := ListingResult.ok
          [{ name := "a.csv", fetch := FetchOutcome.ok [validRow] },
           { name := "b.csv", fetch := FetchOutcome.httpError 404 }] } =
      [("a.csv", [validRow])] ∧
    get_csv_files_from_github mixedFetchEnv = [] := by
  constructor
  · rw [(claim7_fetch_failure_modes _ _ rfl rfl).1 (by decide)]
    decide
  · exact (claim7_fetch_failure_modes mixedFetchEnv _ rfl rfl).2
      ⟨{ name := "b.csv", fetch := FetchOutcome.exn }, by decide, by decide, rfl⟩

/-- C10 (amended): when the configuration is present and the submissions
listing yields no files (empty directory or failed listing), the
recompute publishes exactly one write: the zero snapshot to the fixed
path `data/data.json`, carrying the existing file's version tag so the
previous aggregate is overwritten. -/
theorem claim10_zero_snapshot_published (env : StoreEnv)
    (hcfg : env.configPresent = true)
    (hempty : get_csv_files_from_github env = []) :
    (update_aggregated_data env).2 =
      [{ path := "data/data.json", content := StoreContent.snapshot zeroSnapshot,
         sha := env.getSha "data/data.json" }] := by
  unfold update_aggregated_data
  dsimp only
  rw [hempty]
  have hz : aggregate_submissions [] = some zeroSnapshot := rfl
  rw [hz]
  unfold commit_to_github
  simp [hcfg]

/-- C10 counterexample: with the configuration values absent the
recompute publishes nothing at all — `update_aggregated_data` attempts no
write and returns failure, leaving the previous aggregate in place. -/
theorem claim10_counterexample :
    update_aggregated_data noConfigEnv = (false, []) := by
  exact rfl

/-- C10 witness: the amended theorem applied to an environment whose
listing request fails with a non-200 status. -/
theorem claim10_witness :
    (update_aggregated_data listFailEnv).2 =
      [{ path := "data/data.json", content := StoreContent.snapshot zeroSnapshot,
         sha := some "sha0" }] := by
  exact claim10_zero_snapshot_published listFailEnv rfl rfl

/-- C3: a call strictly less than 24 hours (86400 s) after the recorded
last-accepted timestamp is rejected, with `retryAfterSeconds` the
truncation of `86400 - elapsed` — within 1 second of the claimed
rounded-up value `⌈86400 - elapsed⌉` — and a call at or after 24 hours is
accepted. -/
theorem claim3_rate_limit_window (st : RateStore) (ip : String) (now last : ℚ)
    (h : lookupStore st ip = some last) :
    (now - last < 86400 →
      (check_rate_limit st ip now).1.allowed = false ∧
      (check_rate_limit st ip now).1.waitSeconds = ((86400 : ℚ) - (now - last)).floor ∧
      ⌈(86400 : ℚ) - (now - last)⌉ - 1 ≤ (check_rate_limit st ip now).1.waitSeconds ∧
      (check_rate_limit st ip now).1.waitSeconds ≤ ⌈(86400 : ℚ) - (now - last)⌉) ∧
    (86400 ≤ now - last → (check_rate_limit st ip now).1.allowed = true) := by
  constructor
  · intro hlt
    rw [check_rate_limit_of_lt st ip now last h hlt]
    have hf : ((86400 : ℚ) - (now - last)).floor = ⌊(86400 : ℚ) - (now - last)⌋ := by
      rw [Rat.floor_def', Rat.floor_def]
    refine ⟨rfl, rfl, ?_, ?_⟩
    · have hc := Int.ceil_le_floor_add_one ((86400 : ℚ) - (now - last))
      dsimp only
      rw [hf]
      omega
    · dsimp only
      rw [hf]
      exact Int.floor_le_ceil _
  · intro hge
    rw [check_rate_limit_of_ge st ip now last h (not_lt.mpr hge)]

/-- C3 witness: the theorem applied to an IP last accepted at time 0,
probed at 100 s (rejected, wait 86300 s) and at 86400 s (accepted). -/
theorem claim3_witness :
    (check_rate_limit [("1.2.3.4", (0 : ℚ))] "1.2.3.4" 100).1.allowed = false ∧
    (check_rate_limit [("1.2.3.4", (0 : ℚ))] "1.2.3.4" 100).1.waitSeconds = 86300 ∧
    (check_rate_limit [("1.2.3.4", (0 : ℚ))] "1.2.3.4" 86400).1.allowed = true := by
  have hlook : lookupStore [("1.2.3.4", (0 : ℚ))] "1.2.3.4" = some 0 := rfl
  have h1 := (claim3_rate_limit_window [("1.2.3.4", (0 : ℚ))] "1.2.3.4" 100 0 hlook).1
    (by norm_num)
  have h2 := (claim3_rate_limit_window [("1.2.3.4", (0 : ℚ))] "1.2.3.4" 86400 0 hlook).2
    (by norm_num)
  refine ⟨h1.1, ?_, h2⟩
  rw [h1.2.1, show (86400 : ℚ) - (100 - 0) = ((86300 : ℤ) : ℚ) by norm_num,
      rat_floor_intCast]

/-- C4: when the rate-limit check accepts, the identity's slot is
consumed immediately — whatever the upload's eventual outcome (honeypot,
CSV decoding or validation may still reject it), the updated store maps
the client IP to `now`, and any second request from the same identity
strictly within 24 hours is answered 429. -/
theorem claim4_reserve_then_validate (req : UploadRequest) (st : RateStore) (now : ℚ)
    (ts : String) (env : StoreEnv)
    (hallow : (check_rate_limit st (client_ip req) now).1.allowed = true) :
    lookupStore (upload_file req st now ts env).2.1 (client_ip req) = some now ∧
    (∀ (req2 : UploadRequest) (now2 : ℚ) (ts2 : String) (env2 : StoreEnv),
      client_ip req2 = client_ip req → now2 - now < 86400 →
      (upload_file req2 (upload_file req st now ts env).2.1 now2 ts2 env2).1 =
        UploadResponse.err429 (rate_limit_message ((86400 : ℚ) - (now2 - now)).floor)) := by
  have hst : (upload_file req st now ts env).2.1 = setStore st (client_ip req) now := by
    rw [upload_file_rate_store, check_rate_limit_store_of_allowed st (client_ip req) now hallow]
  have hlook : lookupStore (upload_file req st now ts env).2.1 (client_ip req) = some now := by
    rw [hst]
    exact lookupStore_setStore_self st (client_ip req) now
  refine ⟨hlook, ?_⟩
  intro req2 now2 ts2 env2 hip hlt
  have hlook2 : lookupStore (upload_file req st now ts env).2.1 (client_ip req2) = some now := by
    rw [hip]
    exact hlook
  have hrl := check_rate_limit_of_lt ((upload_file req st now ts env).2.1)
    (client_ip req2) now2 now hlook2 hlt
  have hrej : (check_rate_limit ((upload_file req st now ts env).2.1)
      (client_ip req2) now2).1.allowed = false := by
    rw [hrl]
  rw [upload_file_rejected req2 ((upload_file req st now ts env).2.1) now2 ts2 env2 hrej, hrl]

/-- C4 witness: a first upload that passes admission but fails record
validation (sleep hours 25) still consumes the slot; a second request
from the same IP one hour later is answered 429 with the remaining
wait. -/
theorem claim4_witness :
    lookupStore (upload_file invalidReq [] 0 "20240101_000000" okEnv).2.1
      (client_ip invalidReq) = some 0 ∧
    (upload_file invalidReq (upload_file invalidReq [] 0 "20240101_000000" okEnv).2.1
        3600 "20240101_010000" okEnv).1 =
      UploadResponse.err429 (rate_limit_message 82800) := by
  have h := claim4_reserve_then_validate invalidReq [] 0 "20240101_000000" okEnv (by decide)
  refine ⟨h.1, ?_⟩
  rw [h.2 invalidReq 3600 "20240101_010000" okEnv rfl (by norm_num),
      show (86400 : ℚ) - (3600 - 0) = ((82800 : ℤ) : ℚ) by norm_num, rat_floor_intCast]

/-- C8: an upload whose honeypot form field `website` is non-empty never
reaches a store write (the attempted-write trace is empty), and whenever
it passes the rate-limit gate it is rejected with 400
`Invalid submission.`. -/
theorem claim8_honeypot_rejects (req : UploadRequest) (st : RateStore) (now : ℚ)
    (ts : String) (env : StoreEnv) (h : req.website ≠ "") :
    (upload_file req st now ts env).2.2 = [] ∧
    ((check_rate_limit st (client_ip req) now).1.allowed = true →
      (upload_file req st now ts env).1 = UploadResponse.err400 "Invalid submission.") := by
  unfold upload_file
  dsimp only
  cases hA : (check_rate_limit st (client_ip req) now).1.allowed with
  | false => simp [hA]
  | true => simp [hA, h]

/-- C8 witness: an upload with honeypot value `http://spam` is answered
400 and attempts no store write. -/
theorem claim8_witness :
    (upload_file honeypotReq [] 0 "20240101_000000" okEnv).2.2 = [] ∧
    (upload_file honeypotReq [] 0 "20240101_000000" okEnv).1 =
      UploadResponse.err400 "Invalid submission." := by
  have h := claim8_honeypot_rejects honeypotReq [] 0 "20240101_000000" okEnv (by decide)
  exact ⟨h.1, h.2 (by decide)⟩

theorem validate_of_sleep_out (data : Row) (v : ℚ)
    (hv : floatFieldD data "sleep_hours" (-1) = some v) (hdom : v < 0 ∨ v > 24) :
    validate_submission_data data = (false, "Sleep hours must be between 0 and 24") := by
  unfold validate_submission_data
  rw [hv]
  dsimp only
  rw [if_pos hdom]

theorem validate_of_viol_out (data : Row) (v w : ℚ)
    (hv : floatFieldD data "sleep_hours" (-1) = some v) (hvdom : ¬ (v < 0 ∨ v > 24))
    (hw : floatFieldD data "rest_violations" (-1) = some w) (hwdom : w < 0 ∨ w > 50) :
    validate_submission_data data = (false, "Rest violations must be between 0 and 50") := by
  unfold validate_submission_data
  rw [hv]
  dsimp only
  rw [if_neg hvdom, hw]
  dsimp only
  rw [if_pos hwdom]

theorem validate_of_bad_ship (data : Row) (v w : ℚ)
    (hv : floatFieldD data "sleep_hours" (-1) = some v) (hvdom : ¬ (v < 0 ∨ v > 24))
    (hw : floatFieldD data "rest_violations" (-1) = some w) (hwdom : ¬ (w < 0 ∨ w > 50))
    (hship : ¬ getFieldD data "ship_type" "" ∈ valid_ship_types) :
    validate_submission_data data =
      (false, "Invalid ship type. Must be one of: Tanker, Bulk, Container, Gas, Other") := by
  unfold validate_submission_data
  rw [hv]
  dsimp only
  rw [if_neg hvdom, hw]
  dsimp only
  rw [if_neg hwdom, if_pos hship]

theorem validate_of_bad_region (data : Row) (v w : ℚ)
    (hv : floatFieldD data "sleep_hours" (-1) = some v) (hvdom : ¬ (v < 0 ∨ v > 24))
    (hw : floatFieldD data "rest_violations" (-1) = some w) (hwdom : ¬ (w < 0 ∨ w > 50))
    (hship : getFieldD data "ship_type" "" ∈ valid_ship_types)
    (hregion : ¬ getFieldD data "region" "" ∈ valid_regions) :
    validate_submission_data data =
      (false,
        "Invalid region. Must be one of: Global, Europe, Middle East, Asia, Africa, Americas") := by
  unfold validate_submission_data
  rw [hv]
  dsimp only
  rw [if_neg hvdom, hw]
  dsimp only
  rw [if_neg hwdom, if_neg (not_not_intro hship), if_pos hregion]

theorem validate_of_bad_called (data : Row) (v w : ℚ)
    (hv : floatFieldD data "sleep_hours" (-1) = some v) (hvdom : ¬ (v < 0 ∨ v > 24))
    (hw : floatFieldD data "rest_violations" (-1) = some w) (hwdom : ¬ (w < 0 ∨ w > 50))
    (hship : getFieldD data "ship_type" "" ∈ valid_ship_types)
    (hregion : getFieldD data "region" "" ∈ valid_regions)
    (hcalled : ¬ getFieldD data "called_during_rest" "" ∈ valid_called) :
    validate_submission_data data =
      (false, "Called during rest must be \x27Yes\x27 or \x27No\x27") := by
  unfold validate_submission_data
  rw [hv]
  dsimp only
  rw [if_neg hvdom, hw]
  dsimp only
  rw [if_neg hwdom, if_neg (not_not_intro hship), if_neg (not_not_intro hregion),
      if_pos hcalled]

theorem validate_of_bad_intensity (data : Row) (v w : ℚ)
    (hv : floatFieldD data "sleep_hours" (-1) = some v) (hvdom : ¬ (v < 0 ∨ v > 24))
    (hw : floatFieldD data "rest_violations" (-1) = some w) (hwdom : ¬ (w < 0 ∨ w > 50))
    (hship : getFieldD data "ship_type" "" ∈ valid_ship_types)
    (hregion : getFieldD data "region" "" ∈ valid_regions)
    (hcalled : getFieldD data "called_during_rest" "" ∈ valid_called)
    (hint : ¬ getFieldD data "port_intensity" "" ∈ valid_intensity) :
    validate_submission_data data =
      (false, "Invalid port intensity. Must be one of: Low, Medium, High") := by
  unfold validate_submission_data
  rw [hv]
  dsimp only
  rw [if_neg hvdom, hw]
  dsimp only
  rw [if_neg hwdom, if_neg (not_not_intro hship), if_neg (not_not_intro hregion),
      if_neg (not_not_intro hcalled), if_pos hint]

theorem validate_of_all_ok (data : Row) (v w : ℚ)
    (hv : floatFieldD data "sleep_hours" (-1) = some v) (hvdom : ¬ (v < 0 ∨ v > 24))
    (hw : floatFieldD data "rest_violations" (-1) = some w) (hwdom : ¬ (w < 0 ∨ w > 50))
    (hship : getFieldD data "ship_type" "" ∈ valid_ship_types)
    (hregion : getFieldD data "region" "" ∈ valid_regions)
    (hcalled : getFieldD data "called_during_rest" "" ∈ valid_called)
    (hint : getFieldD data "port_intensity" "" ∈ valid_intensity) :
    validate_submission_data data = (true, "") := by
  unfold validate_submission_data
  rw [hv]
  dsimp only
  rw [if_neg hvdom, hw]
  dsimp only
  rw [if_neg hwdom, if_neg (not_not_intro hship), if_neg (not_not_intro hregion),
      if_neg (not_not_intro hcalled), if_neg (not_not_intro hint)]

theorem floatFieldD_validRow_sleep : floatFieldD validRow "sleep_hours" (-1) = some 7 := by
  rw [show floatFieldD validRow "sleep_hours" (-1) = parseFloat "7" from rfl, parseFloat_7]

theorem floatFieldD_validRow_viol : floatFieldD validRow "rest_violations" (-1) = some 1 := by
  rw [show floatFieldD validRow "rest_violations" (-1) = parseFloat "1" from rfl, parseFloat_1]

theorem validate_validRow : validate_submission_data validRow = (true, "") := by
  exact validate_of_all_ok validRow 7 1 floatFieldD_validRow_sleep (by norm_num)
    floatFieldD_validRow_viol (by norm_num) (by decide) (by decide) (by decide) (by decide)

/-- C5 (amended): `validate` succeeds exactly when `sleep_hours` parses
as a float in `[0, 24]`, `rest_violations` parses as a float in
`[0, 50]`, and the four enum fields each equal a member of their fixed
sets — whose region members are `Global, Europe, Middle East, Asia,
Africa, Americas` (with a space, not the spec's `MiddleEast`) — and each
kind of violation is rejected with its field-specific error message. -/
theorem claim5_validate_characterization :
    (∀ data : Row,
      (validate_submission_data data).1 = true ↔
        ((∃ v, (lookupField data "sleep_hours").bind parseFloat = some v ∧ 0 ≤ v ∧ v ≤ 24) ∧
         (∃ v, (lookupField data "rest_violations").bind parseFloat = some v ∧ 0 ≤ v ∧ v ≤ 50) ∧
         getFieldD data "ship_type" "" ∈ valid_ship_types ∧
         getFieldD data "region" "" ∈ valid_regions ∧
         getFieldD data "called_during_rest" "" ∈ valid_called ∧
         getFieldD data "port_intensity" "" ∈ valid_intensity)) ∧
    (∀ (data : Row) (v : ℚ), floatFieldD data "sleep_hours" (-1) = some v →
      v < 0 ∨ v > 24 →
      validate_submission_data data = (false, "Sleep hours must be between 0 and 24")) ∧
    (∀ (data : Row) (v w : ℚ), floatFieldD data "sleep_hours" (-1) = some v →
      ¬ (v < 0 ∨ v > 24) → floatFieldD data "rest_violations" (-1) = some w →
      w < 0 ∨ w > 50 →
      validate_submission_data data = (false, "Rest violations must be between 0 and 50")) ∧
    (∀ (data : Row) (v w : ℚ), floatFieldD data "sleep_hours" (-1) = some v →
      ¬ (v < 0 ∨ v > 24) → floatFieldD data "rest_violations" (-1) = some w →
      ¬ (w < 0 ∨ w > 50) → ¬ getFieldD data "ship_type" "" ∈ valid_ship_types →
      validate_submission_data data =
        (false, "Invalid ship type. Must be one of: Tanker, Bulk, Container, Gas, Other")) ∧
    (∀ (data : Row) (v w : ℚ), floatFieldD data "sleep_hours" (-1) = some v →
      ¬ (v < 0 ∨ v > 24) → floatFieldD data "rest_violations" (-1) = some w →
      ¬ (w < 0 ∨ w > 50) → getFieldD data "ship_type" "" ∈ valid_ship_types →
      ¬ getFieldD data "region" "" ∈ valid_regions →
      validate_submission_data data =
        (false,
          "Invalid region. Must be one of: Global, Europe, Middle East, Asia, Africa, Americas")) := by
  exact ⟨validate_true_iff, validate_of_sleep_out, validate_of_viol_out,
    validate_of_bad_ship, validate_of_bad_region⟩

/-- C5 counterexample: a record that is valid in every respect except
that its region is spelled `MiddleEast` — the spec's enum member — is
rejected by `validate_submission_data`, while the same record with
`Middle East` is accepted; so the claim that the member string
`MiddleEast` is accepted is false. -/
theorem claim5_counterexample :
    validate_submission_data middleEastRow =
      (false,
        "Invalid region. Must be one of: Global, Europe, Middle East, Asia, Africa, Americas") ∧
    validate_submission_data validRow = (true, "") := by
  have hv : floatFieldD middleEastRow "sleep_hours" (-1) = some 7 := by
    rw [show floatFieldD middleEastRow "sleep_hours" (-1) = parseFloat "7" from rfl, parseFloat_7]
  have hw : floatFieldD middleEastRow "rest_violations" (-1) = some 1 := by
    rw [show floatFieldD middleEastRow "rest_violations" (-1) = parseFloat "1" from rfl,
        parseFloat_1]
  exact ⟨validate_of_bad_region middleEastRow 7 1 hv (by norm_num) hw (by norm_num)
      (by decide) (by decide),
    validate_validRow⟩

/-- C9: once the raw submission file is successfully written to the
store, the upload response is 200 success for every aggregation
environment — the result of `update_aggregated_data` is discarded, so no
aggregation failure reaches the client. -/
theorem claim9_success_despite_aggregation (req : UploadRequest) (st : RateStore) (now : ℚ)
    (ts : String) (env : StoreEnv) (fu : FileUpload) (first : Row) (later : List Row)
    (hallow : (check_rate_limit st (client_ip req) now).1.allowed = true)
    (hweb : req.website = "")
    (hfile : req.file? = some fu)
    (hfn : ¬ fu.filename = "")
    (hrows : fu.parsed = some (first :: later))
    (hval : (validate_submission_data first).1 = true)
    (hcfg : env.configPresent = true)
    (hput : env.put
        { path := "submissions/" ++ ts ++ "_" ++ sanitize_filename fu.filename
          content := StoreContent.raw fu.raw
          sha := env.getSha ("submissions/" ++ ts ++ "_" ++ sanitize_filename fu.filename) } =
      PutOutcome.ok) :
    (upload_file req st now ts env).1 = UploadResponse.ok200 := by
  unfold upload_file
  dsimp only
  simp [hallow, hweb, hfile, hfn, hrows, hval, commit_to_github, hcfg, hput]

/-- C9 witness: a valid upload whose raw write succeeds while the
aggregate publish hits a conflict (aggregation fails) is still answered
200. -/
theorem claim9_witness :
    (upload_file goodReq [] 0 "20240101_000000" aggFailEnv).1 = UploadResponse.ok200 ∧
    (update_aggregated_data aggFailEnv).1 = false := by
  refine ⟨claim9_success_despite_aggregation goodReq [] 0 "20240101_000000" aggFailEnv
    { filename := "sub.csv", raw := "rawbytes", parsed := some [validRow] } validRow []
    (by decide) rfl rfl (by decide) rfl
    (by rw [validate_validRow]) rfl (by decide), by decide⟩

/-- C5 witness: the characterization applied to a fully valid record and
to a record whose sleep hours are out of range. -/
theorem claim5_witness :
    (validate_submission_data validRow).1 = true ∧
    validate_submission_data [("sleep_hours", "25")] =
      (false, "Sleep hours must be between 0 and 24") := by
  constructor
  · refine (claim5_validate_characterization.1 validRow).mpr
      ⟨⟨7, ?_, by norm_num, by norm_num⟩, ⟨1, ?_, by norm_num, by norm_num⟩,
        by decide, by decide, by decide, by decide⟩
    · rw [show (lookupField validRow "sleep_hours").bind parseFloat = parseFloat "7" from rfl,
          parseFloat_7]
    · rw [show (lookupField validRow "rest_violations").bind parseFloat = parseFloat "1" from rfl,
          parseFloat_1]
  · refine claim5_validate_characterization.2.1 [("sleep_hours", "25")] 25 ?_ (by norm_num)
    rw [show floatFieldD [("sleep_hours", "25")] "sleep_hours" (-1) = parseFloat "25" from rfl,
        show parseFloat "25" = some (1 * ((25 : ℕ) : ℚ)) from rfl]
    norm_num
